import Mathlib

/-!
Verification development for the RM-01 Internet Connector.

The definitions below are a shallow embedding of the Python sources:
`src/linux_version/app_state.py` (connection state machine, speed monitor),
`src/linux_version/network_service.py` (adapter detection, privileged
executor), `src/linux_version/cli.py` (CLI exit codes),
`src/win_version/cli/network_service_windows.py` (Windows byte counters).
External effects (subprocess output, sysfs contents, password prompts)
are supplied through explicit environment records; emitted Qt signals are
modelled as an event trace.
-/

namespace RM01

/-! ## String helpers mirroring the Python primitives used by the code -/

/-- Python-style truthiness of a string: `not s` is true exactly when empty. -/
def pyStrFalsy (s : String) : Bool := s.toList.isEmpty

/-- Python-style truthiness of an optional string (`not x`). -/
def pyFalsy : Option String → Bool
  | none => true
  | some s => pyStrFalsy s

/-- `isPrefixL p l` decides whether the char list `p` is a prefix of `l`. -/
def isPrefixL : List Char → List Char → Bool
  | [], _ => true
  | _ :: _, [] => false
  | a :: as, b :: bs => a == b && isPrefixL as bs

/-- `isInfixL needle hay` decides whether `needle` occurs contiguously in `hay`. -/
def isInfixL (needle : List Char) : List Char → Bool
  | [] => needle.isEmpty
  | c :: rest => isPrefixL needle (c :: rest) || isInfixL needle rest

/-- Python `needle in hay` substring test. -/
def containsStr (hay needle : String) : Bool := isInfixL needle.toList hay.toList

/-- Python `str.lower()` (ASCII case folding as used by the code). -/
def lowerStr (s : String) : String := String.mk (s.toList.map Char.toLower)

/-- Python `str.strip()`: remove leading and trailing whitespace. -/
def pyStrip (s : String) : String :=
  String.mk (((s.toList.dropWhile Char.isWhitespace).reverse.dropWhile
      Char.isWhitespace).reverse)

/-- Python `a or b` on strings: `b` when `a` is empty. -/
def pyOrStr (a b : String) : String := if pyStrFalsy a then b else a

/-! ## Data model (`app_state.py`, `network_service.py`) -/

/-- `ConnectionStatus` enum from `app_state.py`. -/
inductive ConnectionStatus
  | idle
  | connecting
  | connected
  | failed
deriving DecidableEq, Repr

/-- `NetworkInterface` dataclass from `network_service.py`. -/
structure NetworkInterface where
  name : String
  mac : String
  description : String
deriving DecidableEq, Repr

/-- Qt signals emitted by `AppState` plus the observable backend effects
(password prompt shown, privileged script execution started). -/
inductive Event
  | statusChanged (s : ConnectionStatus)
  | interfaceChanged (i : Option NetworkInterface)
  | statusKeyChanged (k : String)
  | busyChanged (b : Bool)
  | speedChanged (up down : ℚ)
  | errorOccurred (msg : String)
  | passwordRequested
  | scriptStarted
deriving DecidableEq, Repr

/-- The mutable fields of `AppState` (speeds as rationals; the running
`SpeedMonitor` thread is modelled by the interface name it samples). -/
structure AppState where
  connectionStatus : ConnectionStatus
  currentInterface : Option NetworkInterface
  upstreamInterface : Option NetworkInterface
  statusKey : String
  isBusy : Bool
  uploadSpeed : ℚ
  downloadSpeed : ℚ
  cachedPassword : Option String
  speedMonitor : Option String
deriving DecidableEq, Repr

/-- Environment of one `AppState` operation: results of the OS-facing calls
made during it (`detect_adapter`, `find_upstream_interface`,
`request_password`, `enable_sharing`/`disable_sharing`, the two iptables
probes and the `/proc/sys/net/ipv4/ip_forward` read). -/
structure Env where
  detectResult : Option NetworkInterface
  upstreamResult : Option NetworkInterface
  promptResult : Option String
  shareResult : Bool × String
  iptablesSudo : Option (Nat × String)
  iptablesPlain : Option (Nat × String)
  ipForwardFile : Option String
deriving DecidableEq, Repr

/-! ## Property setters (`app_state.py` lines 101-139): each emits its
signal only when the new value differs from the stored one. -/

/-- Setter for `connection_status`. -/
def setConnectionStatus (s : AppState) (v : ConnectionStatus) :
    AppState × List Event :=
  if s.connectionStatus ≠ v then
    ({s with connectionStatus := v}, [Event.statusChanged v])
  else (s, [])

/-- Setter for `current_interface`. -/
def setCurrentInterface (s : AppState) (v : Option NetworkInterface) :
    AppState × List Event :=
  if s.currentInterface ≠ v then
    ({s with currentInterface := v}, [Event.interfaceChanged v])
  else (s, [])

/-- Setter for `status_key`. -/
def setStatusKey (s : AppState) (v : String) : AppState × List Event :=
  if s.statusKey ≠ v then
    ({s with statusKey := v}, [Event.statusKeyChanged v])
  else (s, [])

/-- Setter for `is_busy`. -/
def setIsBusy (s : AppState) (v : Bool) : AppState × List Event :=
  if s.isBusy ≠ v then
    ({s with isBusy := v}, [Event.busyChanged v])
  else (s, [])


/-! ## Status reconciliation helpers (`app_state.py` lines 184-216) -/

/-- One iptables probe: `returncode == 0 and 'MASQUERADE' in stdout and
'10.10.99.0' in stdout`; `none` models a raised exception (skipped). -/
def cmdShowsNat : Option (Nat × String) → Bool
  | some (rc, out) =>
      rc == 0 && containsStr out "MASQUERADE" && containsStr out "10.10.99.0"
  | none => false

/-- `AppState._check_actual_connection`: try `sudo -n iptables` then plain
`iptables`, true as soon as one probe shows the MASQUERADE rule. -/
def checkActualConnection (env : Env) : Bool :=
  cmdShowsNat env.iptablesSudo || cmdShowsNat env.iptablesPlain

/-- `AppState._check_ip_forwarding`: read `/proc/sys/net/ipv4/ip_forward`,
strip, compare to "1"; false when the read fails. -/
def checkIpForwarding (env : Env) : Bool :=
  match env.ipForwardFile with
  | some content => pyStrip content == "1"
  | none => false

/-- `AppState._start_speed_monitor`: create a monitor only when an
interface is current and no monitor is running yet. -/
def startSpeedMonitor (s : AppState) : AppState :=
  match s.currentInterface, s.speedMonitor with
  | some i, none => {s with speedMonitor := some i.name}
  | _, _ => s

/-- `AppState._stop_speed_monitor`: stop any monitor, zero both rates and
emit `speed_changed(0.0, 0.0)` unconditionally. -/
def stopSpeedMonitor (s : AppState) : AppState × List Event :=
  ({s with speedMonitor := none, uploadSpeed := 0, downloadSpeed := 0},
   [Event.speedChanged 0 0])

/-- `AppState.refresh_interface` (lines 153-182): update the current
interface through its setter, then reconcile status against the live NAT
rule and forwarding flag; the NAT-present branches write `_connection_status`
and `_status_key` directly and emit their signals unconditionally. -/
def refreshInterface (env : Env) (s : AppState) : AppState × List Event :=
  let r1 := setCurrentInterface s env.detectResult
  match env.detectResult with
  | none => (r1.1, r1.2)
  | some _ =>
    let isConfigured := checkActualConnection env
    let isForwarding := checkIpForwarding env
    if isConfigured && isForwarding then
      let s2 := {r1.1 with connectionStatus := ConnectionStatus.connected,
                           statusKey := "status_connected",
                           upstreamInterface := env.upstreamResult}
      (startSpeedMonitor s2,
       r1.2 ++ [Event.statusChanged ConnectionStatus.connected,
                Event.statusKeyChanged "status_connected"])
    else if isConfigured && !isForwarding then
      let s2 := {r1.1 with connectionStatus := ConnectionStatus.failed,
                           statusKey := "status_failed"}
      (s2, r1.2 ++ [Event.statusChanged ConnectionStatus.failed,
                    Event.statusKeyChanged "status_failed"])
    else (r1.1, r1.2)

/-! ## Connect / disconnect (`app_state.py` lines 237-368) -/

/-- `"permission" in error.lower() or "password" in error.lower()` — the
auth-failure classification used by `_perform_connect`/`_perform_disconnect`. -/
def isAuthError (error : String) : Bool :=
  containsStr (lowerStr error) "permission" ||
  containsStr (lowerStr error) "password"

/-- Tail of `_perform_connect`: run `enable_sharing` and handle its result
(`app_state.py` lines 284-301). -/
def runEnable (env : Env) (s : AppState) (evs : List Event) :
    AppState × List Event :=
  if env.shareResult.1 then
    let r1 := setStatusKey s "status_connected"
    let r2 := setConnectionStatus r1.1 ConnectionStatus.connected
    (startSpeedMonitor r2.1, evs ++ [Event.scriptStarted] ++ r1.2 ++ r2.2)
  else
    let s1 := if isAuthError env.shareResult.2 then
                {s with cachedPassword := none} else s
    let r2 := setStatusKey s1 "status_failed"
    let r3 := setConnectionStatus r2.1 ConnectionStatus.failed
    (r3.1, evs ++ [Event.scriptStarted] ++ r2.2 ++ r3.2 ++
           [Event.errorOccurred env.shareResult.2])

/-- Body of `_perform_connect` (the `try` block, lines 249-306). -/
def performConnectBody (env : Env) (s : AppState) : AppState × List Event :=
  match env.detectResult with
  | none =>
    let r1 := setStatusKey s "interface_none"
    let r2 := setConnectionStatus r1.1 ConnectionStatus.failed
    let r3 := setIsBusy r2.1 false
    (r3.1, r1.2 ++ r2.2 ++ [Event.errorOccurred "error_no_interface"] ++ r3.2)
  | some iface =>
    let r1 := setCurrentInterface s (some iface)
    match env.upstreamResult with
    | none =>
      let r2 := setStatusKey r1.1 "status_failed"
      let r3 := setConnectionStatus r2.1 ConnectionStatus.failed
      let r4 := setIsBusy r3.1 false
      (r4.1, r1.2 ++ r2.2 ++ r3.2 ++
             [Event.errorOccurred "error_no_upstream"] ++ r4.2)
    | some upstream =>
      let s2 := {r1.1 with upstreamInterface := some upstream}
      if pyFalsy s2.cachedPassword then
        if pyFalsy env.promptResult then
          let r2 := setStatusKey s2 "status_idle"
          let r3 := setConnectionStatus r2.1 ConnectionStatus.idle
          let r4 := setIsBusy r3.1 false
          (r4.1, r1.2 ++ [Event.passwordRequested] ++ r2.2 ++ r3.2 ++ r4.2)
        else
          runEnable env {s2 with cachedPassword := env.promptResult}
            (r1.2 ++ [Event.passwordRequested])
      else
        runEnable env s2 r1.2

/-- `_perform_connect` with its `finally: self.is_busy = False`. -/
def performConnect (env : Env) (s : AppState) : AppState × List Event :=
  let r1 := performConnectBody env s
  let r2 := setIsBusy r1.1 false
  (r2.1, r1.2 ++ r2.2)

/-- `AppState.connect` (lines 237-247): early out when busy, otherwise set
busy/connecting and run the deferred `_perform_connect`. -/
def connect (env : Env) (s : AppState) : AppState × List Event :=
  if s.isBusy then (s, [])
  else
    let r1 := setIsBusy s true
    let r2 := setConnectionStatus r1.1 ConnectionStatus.connecting
    let r3 := setStatusKey r2.1 "status_connecting"
    let r4 := performConnect env r3.1
    (r4.1, r1.2 ++ r2.2 ++ r3.2 ++ r4.2)

/-- Tail of `_perform_disconnect`: run `disable_sharing` and handle its
result (`app_state.py` lines 344-360). -/
def runDisable (env : Env) (s : AppState) (evs : List Event) :
    AppState × List Event :=
  if env.shareResult.1 then
    let r1 := setStatusKey s "status_idle"
    let r2 := setConnectionStatus r1.1 ConnectionStatus.idle
    let r3 := setCurrentInterface r2.1 none
    ({r3.1 with upstreamInterface := none},
     evs ++ [Event.scriptStarted] ++ r1.2 ++ r2.2 ++ r3.2)
  else
    let s1 := if isAuthError env.shareResult.2 then
                {s with cachedPassword := none} else s
    let r2 := setStatusKey s1 "status_failed"
    let r3 := setConnectionStatus r2.1 ConnectionStatus.failed
    (r3.1, evs ++ [Event.scriptStarted] ++ r2.2 ++ r3.2 ++
           [Event.errorOccurred env.shareResult.2])

/-- Body of `_perform_disconnect` (the `try` block, lines 322-360). -/
def performDisconnectBody (env : Env) (s : AppState) : AppState × List Event :=
  let r0 := stopSpeedMonitor s
  if r0.1.currentInterface.isNone || r0.1.upstreamInterface.isNone then
    let r1 := setStatusKey r0.1 "status_idle"
    let r2 := setConnectionStatus r1.1 ConnectionStatus.idle
    let r3 := setIsBusy r2.1 false
    (r3.1, r0.2 ++ r1.2 ++ r2.2 ++ r3.2)
  else
    if pyFalsy r0.1.cachedPassword then
      if pyFalsy env.promptResult then
        let r1 := setStatusKey r0.1 "status_connected"
        let r2 := setConnectionStatus r1.1 ConnectionStatus.connected
        let r3 := setIsBusy r2.1 false
        (r3.1, r0.2 ++ [Event.passwordRequested] ++ r1.2 ++ r2.2 ++ r3.2)
      else
        runDisable env {r0.1 with cachedPassword := env.promptResult}
          (r0.2 ++ [Event.passwordRequested])
    else
      runDisable env r0.1 r0.2

/-- `_perform_disconnect` with its `finally: self.is_busy = False`. -/
def performDisconnect (env : Env) (s : AppState) : AppState × List Event :=
  let r1 := performDisconnectBody env s
  let r2 := setIsBusy r1.1 false
  (r2.1, r1.2 ++ r2.2)

/-- `AppState.disconnect` (lines 311-320): early out when busy, otherwise
set busy/disconnecting and run the deferred `_perform_disconnect`. -/
def disconnect (env : Env) (s : AppState) : AppState × List Event :=
  if s.isBusy then (s, [])
  else
    let r1 := setIsBusy s true
    let r2 := setStatusKey r1.1 "status_disconnecting"
    let r3 := setConnectionStatus r2.1 ConnectionStatus.connecting
    let r4 := performDisconnect env r3.1
    (r4.1, r1.2 ++ r2.2 ++ r3.2 ++ r4.2)

/-! ## Speed sampler (`SpeedMonitor.run`, `app_state.py` lines 35-66) -/

/-- One tick of the monitor loop: with previous counters `(lastRx, lastTx)`,
current counters `(rx, tx)` and elapsed time, emit
`(rx_diff/elapsed, tx_diff/elapsed)` where a non-increasing counter yields a
zero delta; no sample is emitted when no time has elapsed. -/
def speedTick (lastRx lastTx rx tx : Nat) (elapsed : ℚ) : Option (ℚ × ℚ) :=
  if 0 < elapsed then
    let rxDiff : ℚ := if lastRx < rx then (rx : ℚ) - (lastRx : ℚ) else 0
    let txDiff : ℚ := if lastTx < tx then (tx : ℚ) - (lastTx : ℚ) else 0
    some (rxDiff / elapsed, txDiff / elapsed)
  else none

/-! ## Privileged executor (`network_service.py` lines 308-360) -/

/-- Outcome of the `sudo -S bash script` subprocess inside
`_run_privileged`. -/
inductive ExecOutcome
  | completed (returncode : Nat) (stdoutText stderrText : String)
  | timedOut
  | raised (msg : String)
deriving DecidableEq, Repr

/-- Filesystem effects of `_run_privileged` on its temporary script. -/
inductive FileAction
  | create
  | delete
deriving DecidableEq, Repr

/-- Environment of one `_run_privileged` call: whether the temporary script
file could be created (`.error msg` models `NamedTemporaryFile` raising),
and how the subprocess ended. -/
structure ExecEnv where
  tmpFile : Except String String
  outcome : ExecOutcome
deriving Repr

/-- Non-zero exit classification (lines 344-348): take
`stderr.strip() or stdout.strip()` and report `"error_permission"` when it
mentions a known elevation-denial phrase. -/
def classifyFailure (stdoutText stderrText : String) : Bool × String :=
  let errorMsg := pyOrStr (pyStrip stderrText) (pyStrip stdoutText)
  if containsStr (lowerStr errorMsg) "incorrect password" ||
     containsStr (lowerStr errorMsg) "authentication failure" then
    (false, "error_permission")
  else (false, errorMsg)

/-- `NetworkService._run_privileged`: create the temporary script, run it,
classify the outcome, and in the `finally` block delete the script whenever
it was created. -/
def runPrivileged (env : ExecEnv) : (Bool × String) × List FileAction :=
  match env.tmpFile with
  | Except.error msg => ((false, msg), [])
  | Except.ok _ =>
    let result : Bool × String :=
      match env.outcome with
      | ExecOutcome.completed rc out err =>
          if rc == 0 then (true, "") else classifyFailure out err
      | ExecOutcome.timedOut => (false, "Operation timed out")
      | ExecOutcome.raised msg => (false, msg)
    (result, [FileAction.create, FileAction.delete])

/-! ## Adapter detection (`network_service.py` lines 50-166) -/

/-- What `/sys/class/net/<name>` exposes for one interface: whether the
`device` symlink exists, whether `device/uevent` exists, its content
(`none` models the read raising), and the `address` file content. -/
structure SysfsIface where
  name : String
  hasDevice : Bool
  ueventExists : Bool
  ueventRead : Option String
  addressFile : Option String
deriving DecidableEq, Repr

/-- Environment of adapter detection: `/sys/class/net` listing and the
`lsusb` output (`none` models the command failing). -/
structure DetectEnv where
  netExists : Bool
  ifaces : List SysfsIface
  lsusb : Option String
deriving DecidableEq, Repr

/-- `iface_name.startswith(('lo', 'docker', 'br-', 'veth', 'virbr'))`. -/
def skipName (name : String) : Bool :=
  ["lo", "docker", "br-", "veth", "virbr"].any
    (fun p => isPrefixL p.toList name.toList)

/-- `NetworkService._get_mac_address`: read and strip the `address` file,
`"N/A"` on failure. -/
def getMac (i : SysfsIface) : String :=
  match i.addressFile with
  | some content => pyStrip content
  | none => "N/A"

/-- `NetworkService._is_ax88179_uevent`: the lowered uevent content mentions
`vendor=0b95` or `ax88179`. -/
def isAx88179Uevent (content : String) : Bool :=
  containsStr (lowerStr content) "vendor=0b95" ||
  containsStr (lowerStr content) "ax88179"

/-- The accepting condition of the uevent branch: the file exists, its read
succeeded and the content matches. -/
def ueventMatched (i : SysfsIface) : Bool :=
  i.ueventExists &&
  (match i.ueventRead with
   | some c => isAx88179Uevent c
   | none => false)

/-- `NetworkService._check_usb_device_exists`: the lowered `lsusb` output
mentions `asix` and one of `ax88179` / `0b95:1790`. -/
def checkUsbDeviceExists (env : DetectEnv) : Bool :=
  match env.lsusb with
  | none => false
  | some out =>
    containsStr (lowerStr out) "asix" &&
    (containsStr (lowerStr out) "ax88179" ||
     containsStr (lowerStr out) "0b95:1790")

/-- `':'.join(iface_name[3:][i:i+2] for i in range(0, 12, 2))`. -/
def macFromName (name : String) : String :=
  String.intercalate ":"
    ((List.range 6).map
      (fun k => String.mk (((name.toList.drop 3).drop (2 * k)).take 2)))

/-- `NetworkService._check_usb_device_with_mac`: require the USB device to
exist per lsusb, then try to corroborate via the MAC encoded in the `enx`
name — falling back to accepting the interface either way. -/
def checkUsbDeviceWithMac (env : DetectEnv) (i : SysfsIface) : Bool :=
  if !checkUsbDeviceExists env then false
  else if isPrefixL "enx".toList i.name.toList && i.name.length == 15 then
    if lowerStr (getMac i) == lowerStr (macFromName i.name) then true
    else true
  else true

/-- The `NetworkInterface` appended for an accepted sysfs entry. -/
def mkIface (i : SysfsIface) : NetworkInterface :=
  { name := i.name, mac := getMac i, description := "AX88179 Gigabit Ethernet" }

/-- The interface-directory loop of `_detect_all_adapters` (lines 66-107),
with the accumulated matches made explicit. -/
def detectAllAux (env : DetectEnv) :
    List SysfsIface → List NetworkInterface → List NetworkInterface
  | [], acc => acc
  | i :: rest, acc =>
    if skipName i.name then detectAllAux env rest acc
    else if !i.hasDevice then detectAllAux env rest acc
    else if ueventMatched i then detectAllAux env rest (acc ++ [mkIface i])
    else if isPrefixL "enx".toList i.name.toList && acc.isEmpty &&
            checkUsbDeviceWithMac env i then
      detectAllAux env rest (acc ++ [mkIface i])
    else detectAllAux env rest acc

/-- `NetworkService._detect_all_adapters`. -/
def detectAllAdapters (env : DetectEnv) : List NetworkInterface :=
  if !env.netExists then [] else detectAllAux env env.ifaces []

/-- `NetworkService.detect_adapter`: first detected adapter, if any. -/
def detectAdapter (env : DetectEnv) : Option NetworkInterface :=
  (detectAllAdapters env).head?

/-- The full acceptance condition of the uevent branch of the loop (entry
not name-skipped, `device` symlink present, uevent matched). -/
def ueventAccepts (e : SysfsIface) : Bool :=
  !skipName e.name && e.hasDevice && ueventMatched e

/-- The full acceptance condition of the lsusb fallback branch of the loop,
apart from the no-prior-match guard (entry not name-skipped, `device`
symlink present, `enx`-named, AX88179 present per lsusb). -/
def fallbackAccepts (env : DetectEnv) (e : SysfsIface) : Bool :=
  !skipName e.name && e.hasDevice &&
  isPrefixL "enx".toList e.name.toList && checkUsbDeviceExists env

/-! ## macOS adapter detection
(`mac_version/cli/network_service_macos.py` lines 35-99) -/

/-- Python `str.split(c)` helper over char lists. -/
def splitOnCharAux (c : Char) : List Char → List Char → List (List Char)
  | [], cur => [cur.reverse]
  | a :: rest, cur =>
      if a == c then cur.reverse :: splitOnCharAux c rest []
      else splitOnCharAux c rest (a :: cur)

/-- Python `stdout.split('\n')`. -/
def pySplitLines (s : String) : List String :=
  (splitOnCharAux '\n' s.toList []).map String.mk

/-- Python `str.replace(needle, '')`: drop every occurrence of `needle`;
the fuel argument (instantiated with the list length) bounds the scan. -/
def replaceChunk (needle : List Char) : Nat → List Char → List Char
  | _, [] => []
  | 0, l => l
  | fuel + 1, a :: rest =>
      if !needle.isEmpty && isPrefixL needle (a :: rest) then
        replaceChunk needle fuel ((a :: rest).drop needle.length)
      else a :: replaceChunk needle fuel rest

/-- Python `s.replace(needle, '')`. -/
def pyReplaceEmpty (s needle : String) : String :=
  String.mk (replaceChunk needle.toList s.toList.length s.toList)

/-- Python `a or b` for an optional string `a` (used for `current_mac or
"N/A"`). -/
def pyOrOpt (a : Option String) (b : String) : String :=
  match a with
  | some w => if pyStrFalsy w then b else w
  | none => b

/-- `NetworkInterface` dataclass of the macOS backend (adds the BSD device
name). -/
structure MacNetworkInterface where
  name : String
  description : String
  mac : String
  device : String
deriving DecidableEq, Repr

/-- The three parser variables of `MacOSNetworkService.detect_adapter`. -/
structure MacState where
  currentPort : Option String
  currentDevice : Option String
  currentMac : Option String
deriving DecidableEq, Repr

/-- Environment of the macOS detection: the
`networksetup -listallhardwareports` result (`none` models a raised
exception). -/
structure MacEnv where
  networksetup : Option (Nat × String)
deriving DecidableEq, Repr

/-- `MacOSNetworkService.KNOWN_IDENTIFIERS`. -/
def knownIdentifiers : List String := ["ax88179"]

/-- `MacOSNetworkService._is_ax88179a`: some known identifier occurs in the
lowered hardware-port name. -/
def isAx88179a (portName : String) : Bool :=
  knownIdentifiers.any (fun ident => containsStr (lowerStr portName) ident)

/-- `if current_port and self._is_ax88179a(current_port) and
current_device: return NetworkInterface(...)` — run both mid-loop (on each
new `Hardware Port:` line) and after the loop. -/
def macFinalCheck (st : MacState) : Option MacNetworkInterface :=
  match st.currentPort, st.currentDevice with
  | some port, some device =>
      if !pyStrFalsy port && isAx88179a port && !pyStrFalsy device then
        some { name := port, description := "AX88179A USB Ethernet Adapter",
               mac := pyOrOpt st.currentMac "N/A", device := device }
      else none
  | _, _ => none

/-- The line loop of `MacOSNetworkService.detect_adapter` (lines 58-89). -/
def macDetectLoop : List String → MacState → Option MacNetworkInterface
  | [], st => macFinalCheck st
  | line :: rest, st =>
    let l := pyStrip line
    if isPrefixL "Hardware Port:".toList l.toList then
      match macFinalCheck st with
      | some iface => some iface
      | none =>
          macDetectLoop rest
            { currentPort := some (pyStrip (pyReplaceEmpty l "Hardware Port:")),
              currentDevice := none, currentMac := none }
    else if isPrefixL "Device:".toList l.toList then
      macDetectLoop rest
        {st with currentDevice := some (pyStrip (pyReplaceEmpty l "Device:"))}
    else if isPrefixL "Ethernet Address:".toList l.toList then
      macDetectLoop rest
        {st with
          currentMac := some (pyStrip (pyReplaceEmpty l "Ethernet Address:"))}
    else macDetectLoop rest st

/-- `MacOSNetworkService.detect_adapter`: `none` on a failed or raising
`networksetup` call, otherwise parse its output lines. -/
def macDetectAdapter (env : MacEnv) : Option MacNetworkInterface :=
  match env.networksetup with
  | none => none
  | some (rc, out) =>
    if rc ≠ 0 then none
    else macDetectLoop (pySplitLines out)
      { currentPort := none, currentDevice := none, currentMac := none }

/-! ## CLI exit codes (`cli.py` lines 446-578) -/

/-- Environment of one CLI command: detection results, the interactive
password prompt (`none` models `KeyboardInterrupt`/`EOFError`), the
enable/disable outcome and the saved `/tmp/rm01_connection_state` content. -/
structure CliEnv where
  adapter : Option NetworkInterface
  upstream : Option NetworkInterface
  promptOutcome : Option String
  shareResult : Bool × String
  savedState : Option (String × String)
deriving DecidableEq, Repr

/-- The shared password flow: use a non-empty `--password` argument, else
prompt; `none` is the interrupted prompt (which exits with code 1). -/
def obtainPassword (passwordArg : Option String) (env : CliEnv) :
    Option String :=
  if pyFalsy passwordArg then env.promptOutcome else passwordArg

/-- `CLI.cmd_connect`: returns the process exit code. -/
def cmdConnect (passwordArg : Option String) (env : CliEnv) : Nat :=
  match env.adapter with
  | none => 1
  | some _ =>
    match env.upstream with
    | none => 1
    | some _ =>
      match obtainPassword passwordArg env with
      | none => 1
      | some password =>
        if pyStrFalsy password then 1
        else if env.shareResult.1 then 0 else 1

/-- The state lookup at the top of `cmd_disconnect`: saved state, else a
freshly detected adapter/upstream pair. -/
def cliState (env : CliEnv) : Option (String × String) :=
  match env.savedState with
  | some st => some st
  | none =>
    match env.adapter with
    | some a =>
      match env.upstream with
      | some u => some (a.name, u.name)
      | none => none
    | none => none

/-- `CLI.cmd_disconnect`: returns the process exit code. -/
def cmdDisconnect (passwordArg : Option String) (env : CliEnv) : Nat :=
  match cliState env with
  | none => 0
  | some _ =>
    match obtainPassword passwordArg env with
    | none => 1
    | some password =>
      if pyStrFalsy password then 1
      else if env.shareResult.1 then 0 else 1

/-! ## Windows byte counters
(`network_service_windows.py` lines 317-337) -/

/-- Environment of `WindowsNetworkService.get_interface_stats`: the `netsh`
subprocess result (`none` models any raised exception). -/
structure WinEnv where
  netsh : Option String
deriving DecidableEq, Repr

/-- `WindowsNetworkService.get_interface_stats`: netsh provides no traffic
counters, so the function returns `(0, 0)` whether or not the query runs. -/
def winGetInterfaceStats (_iface : String) (env : WinEnv) : Nat × Nat :=
  match env.netsh with
  | some _ => (0, 0)
  | none => (0, 0)

/-! ## Concrete fixtures used by witnesses and counterexamples -/

/-- The RM-01 adapter as detected on Linux. -/
def ifc0 : NetworkInterface :=
  { name := "enxc8a3627e8d4d", mac := "c8:a3:62:7e:8d:4d",
    description := "AX88179 Gigabit Ethernet" }

/-- A Wi-Fi upstream interface. -/
def up0 : NetworkInterface :=
  { name := "wlp2s0", mac := "aa:aa:aa:aa:aa:aa",
    description := "Upstream Network" }

/-- An idle state with the busy flag raised (a connect is in flight). -/
def sBusy : AppState :=
  { connectionStatus := ConnectionStatus.idle, currentInterface := none,
    upstreamInterface := none, statusKey := "status_idle", isBusy := true,
    uploadSpeed := 0, downloadSpeed := 0, cachedPassword := none,
    speedMonitor := none }

/-- An environment where every OS probe comes back empty. -/
def envNone : Env :=
  { detectResult := none, upstreamResult := none, promptResult := none,
    shareResult := (false, ""), iptablesSudo := none, iptablesPlain := none,
    ipForwardFile := none }

/-- A connected state observed while the NAT rule is gone: refresh leaves
the Failed status in place. -/
def sFailed : AppState :=
  { connectionStatus := ConnectionStatus.failed,
    currentInterface := some ifc0, upstreamInterface := some up0,
    statusKey := "status_failed", isBusy := false,
    uploadSpeed := 0, downloadSpeed := 0, cachedPassword := none,
    speedMonitor := none }

/-- An environment where the adapter is present but no MASQUERADE rule is
found by either iptables probe. -/
def envNoNat : Env :=
  { detectResult := some ifc0, upstreamResult := some up0,
    promptResult := none, shareResult := (false, ""),
    iptablesSudo := none, iptablesPlain := some (0, "Chain POSTROUTING"),
    ipForwardFile := some "1\n" }

/-- A state already Connected with the monitor running, observed by a
refresh that finds the very same configuration. -/
def sConnected : AppState :=
  { connectionStatus := ConnectionStatus.connected,
    currentInterface := some ifc0, upstreamInterface := some up0,
    statusKey := "status_connected", isBusy := false,
    uploadSpeed := 0, downloadSpeed := 0, cachedPassword := none,
    speedMonitor := some "enxc8a3627e8d4d" }

/-- An environment whose probes report exactly the configuration stored in
`sConnected`: NAT rule present and forwarding on. -/
def envConnected : Env :=
  { detectResult := some ifc0, upstreamResult := some up0,
    promptResult := none, shareResult := (false, ""),
    iptablesSudo := none,
    iptablesPlain := some (0, "MASQUERADE  all  --  10.10.99.0/24  anywhere"),
    ipForwardFile := some "1\n" }

/-- An `enx`-named interface whose own uevent shows a different driver,
while lsusb reports an AX88179 elsewhere on the bus. -/
def cexIface : SysfsIface :=
  { name := "enxaabbccddeeff", hasDevice := true, ueventExists := true,
    ueventRead := some "DRIVER=r8152", addressFile := some "aa:bb:cc:dd:ee:ff\n" }

/-- Detection environment exercising the lsusb fallback path. -/
def cexDetectEnv : DetectEnv :=
  { netExists := true, ifaces := [cexIface],
    lsusb := some
      "Bus 001 Device 004: ID 0b95:1790 ASIX Electronics Corp. AX88179 Gigabit Ethernet" }

/-- A CLI run with nothing plugged in and no saved connection state. -/
def cexCliEnv : CliEnv :=
  { adapter := none, upstream := none, promptOutcome := none,
    shareResult := (false, ""), savedState := none }

/-- A CLI run with the adapter and upstream present, a password typed at
the prompt, and a successful configuration script. -/
def okCliEnv : CliEnv :=
  { adapter := some ifc0, upstream := some up0,
    promptOutcome := some "hunter2", shareResult := (true, ""),
    savedState := none }

/-- A connected state holding a cached sudo password. -/
def sCached : AppState :=
  { connectionStatus := ConnectionStatus.connected,
    currentInterface := some ifc0, upstreamInterface := some up0,
    statusKey := "status_connected", isBusy := false,
    uploadSpeed := 0, downloadSpeed := 0, cachedPassword := some "hunter2",
    speedMonitor := some "enxc8a3627e8d4d" }

/-- An environment whose privileged script fails with the executor's
authentication-failure classification. -/
def envAuthFail : Env :=
  { detectResult := some ifc0, upstreamResult := some up0,
    promptResult := some "newpw", shareResult := (false, "error_permission"),
    iptablesSudo := none, iptablesPlain := none, ipForwardFile := none }

/-- A connected state with no cached password. -/
def sNoPw : AppState :=
  { connectionStatus := ConnectionStatus.connected,
    currentInterface := some ifc0, upstreamInterface := some up0,
    statusKey := "status_connected", isBusy := false,
    uploadSpeed := 0, downloadSpeed := 0, cachedPassword := none,
    speedMonitor := none }

/-- An environment where the user closes the password prompt. -/
def envCancel : Env :=
  { detectResult := some ifc0, upstreamResult := some up0,
    promptResult := none, shareResult := (true, ""),
    iptablesSudo := none, iptablesPlain := none, ipForwardFile := none }

/-- The adapter returned by the macOS backend in `cexMacEnv`. -/
def macIfc0 : MacNetworkInterface :=
  { name := "AX88179A 5", description := "AX88179A USB Ethernet Adapter",
    mac := "c8:a3:62:7e:8d:4d", device := "en16" }

/-- A `networksetup -listallhardwareports` output listing Wi-Fi first and
the AX88179A hardware port second. -/
def cexMacEnv : MacEnv :=
  { networksetup := some (0,
      "Hardware Port: Wi-Fi\nDevice: en0\nEthernet Address: aa:bb:cc:dd:ee:01\n\nHardware Port: AX88179A 5\nDevice: en16\nEthernet Address: c8:a3:62:7e:8d:4d\n") }

/-! ## Theorems for the claims -/

@[simp] theorem setConnectionStatus_fst (s : AppState) (v : ConnectionStatus) :
    (setConnectionStatus s v).1 = {s with connectionStatus := v} := by
  unfold setConnectionStatus
  split
  · rfl
  · next h =>
    rw [not_not] at h
    rw [← h]

@[simp] theorem setConnectionStatus_snd (s : AppState) (v : ConnectionStatus) :
    (setConnectionStatus s v).2 =
      if s.connectionStatus ≠ v then [Event.statusChanged v] else [] := by
  unfold setConnectionStatus
  split <;> simp_all

@[simp] theorem setCurrentInterface_fst (s : AppState)
    (v : Option NetworkInterface) :
    (setCurrentInterface s v).1 = {s with currentInterface := v} := by
  unfold setCurrentInterface
  split
  · rfl
  · next h =>
    rw [not_not] at h
    rw [← h]

@[simp] theorem setCurrentInterface_snd (s : AppState)
    (v : Option NetworkInterface) :
    (setCurrentInterface s v).2 =
      if s.currentInterface ≠ v then [Event.interfaceChanged v] else [] := by
  unfold setCurrentInterface
  split <;> simp_all

@[simp] theorem setStatusKey_fst (s : AppState) (v : String) :
    (setStatusKey s v).1 = {s with statusKey := v} := by
  unfold setStatusKey
  split
  · rfl
  · next h =>
    rw [not_not] at h
    rw [← h]

@[simp] theorem setStatusKey_snd (s : AppState) (v : String) :
    (setStatusKey s v).2 =
      if s.statusKey ≠ v then [Event.statusKeyChanged v] else [] := by
  unfold setStatusKey
  split <;> simp_all

@[simp] theorem setIsBusy_fst (s : AppState) (v : Bool) :
    (setIsBusy s v).1 = {s with isBusy := v} := by
  unfold setIsBusy
  split
  · rfl
  · next h =>
    rw [not_not] at h
    rw [← h]

@[simp] theorem setIsBusy_snd (s : AppState) (v : Bool) :
    (setIsBusy s v).2 =
      if s.isBusy ≠ v then [Event.busyChanged v] else [] := by
  unfold setIsBusy
  split <;> simp_all

/-- Membership in an `if`-guarded singleton list. -/
theorem mem_ite_singleton {α : Type} {c : Prop} [Decidable c] {x a : α} :
    x ∈ (if c then [a] else []) ↔ c ∧ x = a := by
  split <;> simp_all

theorem pyFalsy_none : pyFalsy none = true := rfl

theorem pyFalsy_some (w : String) : pyFalsy (some w) = pyStrFalsy w := rfl

/-- Projections distribute over a conditional pair. -/
theorem snd_ite {α β : Type} {c : Prop} [Decidable c] (a b : α × β) :
    (if c then a else b).2 = if c then a.2 else b.2 := by
  split <;> rfl

/-- An element of both branches is an element of the conditional. -/
theorem mem_ite_lists {α : Type} {c : Prop} [Decidable c] {x : α}
    {l1 l2 : List α} (h1 : x ∈ l1) (h2 : x ∈ l2) :
    x ∈ (if c then l1 else l2) := by
  split <;> assumption

/-- C1: a `connect()` or `disconnect()` call made while the busy flag is
true returns immediately as a no-op — the whole state (connection status,
current interface, upstream interface, cached credential, speed monitor)
is unchanged, no signal is emitted, and no backend script execution is
started. -/
theorem busy_connect_disconnect_noop (env : Env) (s : AppState)
    (h : s.isBusy = true) :
    connect env s = (s, []) ∧ disconnect env s = (s, [])
    ∧ Event.scriptStarted ∉ (connect env s).2
    ∧ Event.scriptStarted ∉ (disconnect env s).2 := by
  simp [connect, disconnect, h]

/-- Witness for C1 at a concrete busy state and environment. -/
theorem busy_connect_disconnect_noop_witness :
    sBusy.isBusy = true ∧ connect envNone sBusy = (sBusy, [])
    ∧ disconnect envNone sBusy = (sBusy, []) := by
  refine ⟨rfl, ?_, ?_⟩
  · exact (busy_connect_disconnect_noop envNone sBusy rfl).1
  · exact (busy_connect_disconnect_noop envNone sBusy rfl).2.1

/-- The counter-delta clamp of the monitor loop equals `max 0 (b - a)`. -/
theorem clamp_diff_eq_max (a b : Nat) :
    (if a < b then (b : ℚ) - (a : ℚ) else 0) = max 0 ((b : ℚ) - (a : ℚ)) := by
  by_cases h : a < b
  · rw [if_pos h, max_eq_right]
    exact sub_nonneg.mpr (by exact_mod_cast h.le)
  · rw [if_neg h, max_eq_left]
    exact sub_nonpos.mpr (by exact_mod_cast Nat.le_of_not_lt h)

/-- C3: on a monitor tick with elapsed time `e > 0` the emitted upload rate
is `max 0 (rx - lastRx) / e` and the emitted download rate is
`max 0 (tx - lastTx) / e` (upload from the RX delta, download from the TX
delta); the counter sequence `(1000,1000) → (1500,1300)` over 1 second
yields upload 500 B/s and download 300 B/s, and a decreasing counter gives
a zero delta, never a negative one. -/
theorem speed_sample_correct (lastRx lastTx rx tx : Nat) (e : ℚ)
    (he : 0 < e) :
    speedTick lastRx lastTx rx tx e =
      some (max 0 ((rx : ℚ) - (lastRx : ℚ)) / e,
            max 0 ((tx : ℚ) - (lastTx : ℚ)) / e)
    ∧ speedTick 1000 1000 1500 1300 1 = some (500, 300)
    ∧ (rx < lastRx →
        speedTick lastRx lastTx rx tx e =
          some (0, max 0 ((tx : ℚ) - (lastTx : ℚ)) / e)) := by
  refine ⟨?_, by norm_num [speedTick], ?_⟩
  · unfold speedTick
    rw [if_pos he, clamp_diff_eq_max, clamp_diff_eq_max]
  · intro hlt
    have hnot : ¬ lastRx < rx := by omega
    unfold speedTick
    rw [if_pos he, if_neg hnot, clamp_diff_eq_max]
    simp [zero_div]

/-- Witness for C3 at the counter sequence from the specification. -/
theorem speed_sample_correct_witness :
    (0 : ℚ) < 1 ∧ speedTick 1000 1000 1500 1300 1 = some (500, 300) :=
  ⟨by norm_num, (speed_sample_correct 1000 1000 1500 1300 1 (by norm_num)).2.1⟩

/-- C7: whenever `_run_privileged` managed to create its temporary script
file, the file is deleted on every exit path — success, non-zero exit
status, timeout, and unexpected exception are all covered because the
theorem quantifies over every subprocess outcome. -/
theorem run_privileged_deletes_script (env : ExecEnv) (p : String)
    (h : env.tmpFile = Except.ok p) :
    (runPrivileged env).2 = [FileAction.create, FileAction.delete] := by
  unfold runPrivileged
  rw [h]

/-- Witness for C7 on a concrete successful run. -/
theorem run_privileged_deletes_script_witness :
    (runPrivileged { tmpFile := Except.ok "/tmp/tmpabc.sh",
                     outcome := ExecOutcome.completed 0 "ok" "" }).2 =
      [FileAction.create, FileAction.delete] :=
  run_privileged_deletes_script
    { tmpFile := Except.ok "/tmp/tmpabc.sh",
      outcome := ExecOutcome.completed 0 "ok" "" } "/tmp/tmpabc.sh" rfl

/-- C10: the Windows backend's `get_interface_stats` returns `(0, 0)` for
every interface name whether or not the netsh query succeeds, so a speed
sample computed from two Windows counter reads is always `(0, 0)`. -/
theorem win_stats_always_zero (iface : String) (env env2 : WinEnv) :
    winGetInterfaceStats iface env = (0, 0)
    ∧ (∀ e : ℚ, 0 < e →
        speedTick (winGetInterfaceStats iface env).1
          (winGetInterfaceStats iface env).2
          (winGetInterfaceStats iface env2).1
          (winGetInterfaceStats iface env2).2 e = some (0, 0)) := by
  have hz : ∀ w : WinEnv, winGetInterfaceStats iface w = (0, 0) := by
    intro w
    rcases w with ⟨ns⟩
    cases ns <;> rfl
  refine ⟨hz env, ?_⟩
  intro e he
  rw [hz env, hz env2]
  unfold speedTick
  rw [if_pos he]
  simp

/-- Witness for C10 on a concrete interface and netsh outcome. -/
theorem win_stats_always_zero_witness :
    winGetInterfaceStats "Ethernet 2" { netsh := some "Configuration" } = (0, 0)
    ∧ speedTick 0 0 0 0 1 = some (0, 0) := by
  constructor
  · exact (win_stats_always_zero "Ethernet 2" { netsh := some "Configuration" }
      { netsh := none }).1
  · have h := (win_stats_always_zero "Ethernet 2"
      { netsh := some "Configuration" } { netsh := none }).2 1 (by norm_num)
    simpa using h

/-! ## Refresh reconciliation (C2, C6) -/

/-- `_start_speed_monitor` touches only the `speedMonitor` field. -/
theorem startSpeedMonitor_preserves (t : AppState) :
    (startSpeedMonitor t).connectionStatus = t.connectionStatus
    ∧ (startSpeedMonitor t).isBusy = t.isBusy := by
  unfold startSpeedMonitor
  rcases h1 : t.currentInterface with _ | j <;>
    rcases h2 : t.speedMonitor with _ | m <;> simp

/-- After `_start_speed_monitor`, a monitor runs whenever an interface is
current. -/
theorem startSpeedMonitor_isSome (t : AppState) (j : NetworkInterface)
    (hj : t.currentInterface = some j) :
    ((startSpeedMonitor t).speedMonitor).isSome = true := by
  unfold startSpeedMonitor
  rw [hj]
  rcases h2 : t.speedMonitor with _ | m <;> simp [h2]


/-- C2 counterexample: with an adapter detected and the NAT rule absent,
`refresh()` does not set the status to Idle — started from Failed it leaves
the status Failed, contradicting the claim's NAT-absent clause. -/
theorem refresh_nat_absent_keeps_failed_cex :
    envNoNat.detectResult = some ifc0
    ∧ checkActualConnection envNoNat = false
    ∧ (refreshInterface envNoNat sFailed).1.connectionStatus =
        ConnectionStatus.failed
    ∧ ConnectionStatus.failed ≠ ConnectionStatus.idle := by
  decide

/-- C2 as amended: when an adapter is detected, `refresh()` sets Connected
and leaves a running speed monitor when the NAT rule is present and
forwarding is enabled, sets Failed when the NAT rule is present and
forwarding is disabled, and leaves the status unchanged when the NAT rule
is absent; in all cases the busy flag is untouched and no busy notification
is emitted. -/
theorem refresh_reconciliation (env : Env) (s : AppState)
    (i : NetworkInterface) (hd : env.detectResult = some i) :
    (checkActualConnection env = true → checkIpForwarding env = true →
       (refreshInterface env s).1.connectionStatus = ConnectionStatus.connected
       ∧ ((refreshInterface env s).1.speedMonitor).isSome = true)
    ∧ (checkActualConnection env = true → checkIpForwarding env = false →
       (refreshInterface env s).1.connectionStatus = ConnectionStatus.failed)
    ∧ (checkActualConnection env = false →
       (refreshInterface env s).1.connectionStatus = s.connectionStatus)
    ∧ (refreshInterface env s).1.isBusy = s.isBusy
    ∧ (∀ b, Event.busyChanged b ∉ (refreshInterface env s).2) := by
  refine ⟨?_, ?_, ?_, ?_, ?_⟩
  · intro hc hf
    constructor
    · rw [refreshInterface, hd]
      simp only [hc, hf, Bool.and_self, if_true]
      rw [(startSpeedMonitor_preserves _).1]
    · rw [refreshInterface, hd]
      simp only [hc, hf, Bool.and_self, if_true]
      apply startSpeedMonitor_isSome _ i
      simp [hd]
  · intro hc hf
    rw [refreshInterface, hd]
    simp [hc, hf]
  · intro hc
    rw [refreshInterface, hd]
    simp [hc]
  · rw [refreshInterface, hd]
    rcases hc : checkActualConnection env <;>
      rcases hf : checkIpForwarding env <;>
        simp [(startSpeedMonitor_preserves _).2, hd]
  · intro b
    rw [refreshInterface, hd]
    rcases hc : checkActualConnection env <;>
      rcases hf : checkIpForwarding env <;>
        simp [mem_ite_singleton]

/-- Witness for C2 on a concrete connected environment. -/
theorem refresh_reconciliation_witness :
    ((refreshInterface envNoNat sFailed).1.connectionStatus =
        sFailed.connectionStatus)
    ∧ (refreshInterface envNoNat sFailed).1.isBusy = sFailed.isBusy
    ∧ Event.busyChanged true ∉ (refreshInterface envNoNat sFailed).2 := by
  have h := refresh_reconciliation envNoNat sFailed ifc0 rfl
  exact ⟨h.2.2.1 (by decide), h.2.2.2.1, h.2.2.2.2 true⟩


/-- C6 counterexample: `refresh()` writes the status field directly and
emits `status_changed` unconditionally — here the state is completely
unchanged by the call, yet a status notification is emitted, contradicting
the claim for the refresh code path. -/
theorem refresh_emits_unchanged_status_cex :
    (refreshInterface envConnected sConnected).1 = sConnected
    ∧ sConnected.connectionStatus = ConnectionStatus.connected
    ∧ Event.statusChanged ConnectionStatus.connected
        ∈ (refreshInterface envConnected sConnected).2 := by
  decide

/-- C6 as amended: each of the four property setters (connection status,
current interface, status key, busy) emits its change notification exactly
when the new value differs from the stored one; `refresh()`, however,
bypasses the setters and emits a status notification unconditionally in its
NAT-present branch, even when the status value is unchanged. -/
theorem setters_emit_only_on_change :
    (∀ (s : AppState) (v : ConnectionStatus),
        ((setConnectionStatus s v).2 = [] ↔ s.connectionStatus = v))
    ∧ (∀ (s : AppState) (v : Option NetworkInterface),
        ((setCurrentInterface s v).2 = [] ↔ s.currentInterface = v))
    ∧ (∀ (s : AppState) (v : String),
        ((setStatusKey s v).2 = [] ↔ s.statusKey = v))
    ∧ (∀ (s : AppState) (v : Bool),
        ((setIsBusy s v).2 = [] ↔ s.isBusy = v))
    ∧ (∀ (env : Env) (s : AppState) (i : NetworkInterface),
        env.detectResult = some i → checkActualConnection env = true →
        checkIpForwarding env = true →
        Event.statusChanged ConnectionStatus.connected
          ∈ (refreshInterface env s).2) := by
  refine ⟨?_, ?_, ?_, ?_, ?_⟩
  · intro s v
    rw [setConnectionStatus_snd]
    split <;> simp_all
  · intro s v
    rw [setCurrentInterface_snd]
    split <;> simp_all
  · intro s v
    rw [setStatusKey_snd]
    split <;> simp_all
  · intro s v
    rw [setIsBusy_snd]
    split <;> simp_all
  · intro env s i hd hc hf
    rw [refreshInterface, hd]
    simp [hc, hf, mem_ite_singleton]

/-- Witness for C6 applying the setter law and the unconditional refresh
emission at concrete inputs. -/
theorem setters_emit_only_on_change_witness :
    ((setConnectionStatus sConnected ConnectionStatus.connected).2 = []
      ↔ sConnected.connectionStatus = ConnectionStatus.connected)
    ∧ Event.statusChanged ConnectionStatus.connected
        ∈ (refreshInterface envConnected sConnected).2 :=
  ⟨setters_emit_only_on_change.1 sConnected ConnectionStatus.connected,
   setters_emit_only_on_change.2.2.2.2 envConnected sConnected ifc0 rfl
     (by decide) (by decide)⟩

/-! ## Adapter detection (C8) -/

/-- The MAC-correlation check never rejects once lsusb reports the device:
both arms of its inner comparison return `true`. -/
theorem checkUsbDeviceWithMac_eq (env : DetectEnv) (i : SysfsIface) :
    checkUsbDeviceWithMac env i = checkUsbDeviceExists env := by
  unfold checkUsbDeviceWithMac
  cases h : checkUsbDeviceExists env <;> simp [h]

/-- C8 counterexample: `detect_adapter` returns an interface whose sysfs
uevent reports neither vendor id 0b95 nor the AX88179 chip — the lsusb
fallback accepts the first `enx` interface anyway, contradicting the
claim's "only if" condition. -/
theorem detect_fallback_unmatched_cex :
    cexDetectEnv.ifaces = [cexIface]
    ∧ ueventMatched cexIface = false
    ∧ detectAdapter cexDetectEnv = some (mkIface cexIface) := by
  decide

/-- The head of the accumulator survives the rest of the detection loop. -/
theorem detectAllAux_head (env : DetectEnv) :
    ∀ (l : List SysfsIface) (acc : List NetworkInterface)
      (x : NetworkInterface),
      acc.head? = some x → (detectAllAux env l acc).head? = some x := by
  intro l
  induction l with
  | nil =>
    intro acc x h
    rw [detectAllAux]
    exact h
  | cons i rest ih =>
    intro acc x h
    have hne : (acc ++ [mkIface i]).head? = some x := by
      rcases acc with _ | ⟨a, as⟩
      · simp at h
      · simpa using h
    rw [detectAllAux]
    split
    · exact ih acc x h
    · split
      · exact ih acc x h
      · split
        · exact ih _ x hne
        · split
          · exact ih _ x hne
          · exact ih acc x h

/-- The interface at the head of the detection loop's result is built from
the first entry accepted by the uevent check or the lsusb fallback; every
entry listed before it was rejected by both. -/
theorem detectAllAux_first (env : DetectEnv) :
    ∀ (l : List SysfsIface) (x : NetworkInterface),
      (detectAllAux env l []).head? = some x →
      ∃ pre e post, l = pre ++ e :: post ∧ x = mkIface e
        ∧ (ueventAccepts e = true ∨ fallbackAccepts env e = true)
        ∧ ∀ e' ∈ pre, ueventAccepts e' = false
            ∧ fallbackAccepts env e' = false := by
  intro l
  induction l with
  | nil =>
    intro x hx
    rw [detectAllAux] at hx
    simp at hx
  | cons i rest ih =>
    intro x hx
    rw [detectAllAux] at hx
    split at hx
    · next hskip =>
      rcases ih x hx with ⟨pre, e, post, hl, hxe, hacc, hpre⟩
      refine ⟨i :: pre, e, post, by rw [hl, List.cons_append], hxe, hacc, ?_⟩
      intro e' he'
      rcases List.mem_cons.mp he' with rfl | hmem
      · exact ⟨by simp [ueventAccepts, hskip],
               by simp [fallbackAccepts, hskip]⟩
      · exact hpre e' hmem
    · next hskip =>
      split at hx
      · next hdev =>
        rcases ih x hx with ⟨pre, e, post, hl, hxe, hacc, hpre⟩
        refine ⟨i :: pre, e, post, by rw [hl, List.cons_append], hxe, hacc,
                ?_⟩
        intro e' he'
        rcases List.mem_cons.mp he' with rfl | hmem
        · have hdf : e'.hasDevice = false := by simpa using hdev
          exact ⟨by simp [ueventAccepts, hdf],
                 by simp [fallbackAccepts, hdf]⟩
        · exact hpre e' hmem
      · next hdev =>
        have hd : i.hasDevice = true := by simpa using hdev
        split at hx
        · next huev =>
          have hhead := detectAllAux_head env rest ([] ++ [mkIface i])
            (mkIface i) (by simp)
          rw [hhead] at hx
          refine ⟨[], i, rest, by simp, (Option.some.inj hx).symm, ?_,
                  by simp⟩
          left
          simp [ueventAccepts, hd, huev]
          simpa using hskip
        · next huev =>
          split at hx
          · next hfb =>
            have hhead := detectAllAux_head env rest ([] ++ [mkIface i])
              (mkIface i) (by simp)
            rw [hhead] at hx
            have hfb' := hfb
            simp [Bool.and_eq_true] at hfb'
            have husb : checkUsbDeviceExists env = true := by
              rw [← checkUsbDeviceWithMac_eq env i]
              exact hfb'.2
            refine ⟨[], i, rest, by simp, (Option.some.inj hx).symm, ?_,
                    by simp⟩
            right
            have hns : skipName i.name = false := by simpa using hskip
            simp [fallbackAccepts, hd, hns, hfb'.1, husb]
          · next hfb =>
            rcases ih x hx with ⟨pre, e, post, hl, hxe, hacc, hpre⟩
            refine ⟨i :: pre, e, post, by rw [hl, List.cons_append], hxe,
                    hacc, ?_⟩
            intro e' he'
            rcases List.mem_cons.mp he' with rfl | hmem
            · have hue : ueventMatched e' = false := by simpa using huev
              constructor
              · simp [ueventAccepts, hue]
              · cases henx : isPrefixL "enx".toList e'.name.toList with
                | false =>
                  simp only [fallbackAccepts, henx, Bool.and_false,
                             Bool.false_and]
                | true =>
                  cases hus : checkUsbDeviceExists env with
                  | false =>
                    simp only [fallbackAccepts, hus, Bool.and_false]
                  | true =>
                    exfalso
                    apply hfb
                    have h2 : checkUsbDeviceWithMac env e' = true := by
                      rw [checkUsbDeviceWithMac_eq, hus]
                    rw [henx, h2]
                    rfl
            · exact hpre e' hmem

/-- Any interface produced by the mid-loop or final hardware-port check
has a port name containing `ax88179`. -/
theorem macFinalCheck_ax (st : MacState) (y : MacNetworkInterface)
    (h : macFinalCheck st = some y) : isAx88179a y.name = true := by
  rcases hp : st.currentPort with _ | port
  · simp [macFinalCheck, hp] at h
  · rcases hd : st.currentDevice with _ | device
    · simp [macFinalCheck, hp, hd] at h
    · simp only [macFinalCheck, hp, hd] at h
      split at h
      · next hg =>
        have hy := Option.some.inj h
        have hn : y.name = port := by rw [← hy]
        rw [hn]
        simp [Bool.and_eq_true] at hg
        exact hg.1.2
      · exact absurd h (by simp)

/-- Every interface returned by the macOS parsing loop passed the
identifier check, regardless of the lines and parser state. -/
theorem macDetectLoop_ax :
    ∀ (lines : List String) (st : MacState) (y : MacNetworkInterface),
      macDetectLoop lines st = some y → isAx88179a y.name = true := by
  intro lines
  induction lines with
  | nil =>
    intro st y h
    rw [macDetectLoop] at h
    exact macFinalCheck_ax st y h
  | cons line rest ih =>
    intro st y h
    rw [macDetectLoop] at h
    split at h
    · rcases hfc : macFinalCheck st with _ | ifc
      · simp only [hfc] at h
        exact ih _ y h
      · simp only [hfc] at h
        have hy := Option.some.inj h
        rw [← hy]
        exact macFinalCheck_ax st ifc hfc
    · split at h
      · exact ih _ y h
      · split at h
        · exact ih _ y h
        · exact ih st y h

/-- `MacOSNetworkService.detect_adapter` returns only hardware ports whose
name contains `ax88179`. -/
theorem macDetectAdapter_ax (env : MacEnv) (y : MacNetworkInterface)
    (h : macDetectAdapter env = some y) : isAx88179a y.name = true := by
  rcases hn : env.networksetup with _ | ⟨rc, out⟩
  · simp [macDetectAdapter, hn] at h
  · simp only [macDetectAdapter, hn] at h
    split at h
    · exact absurd h (by simp)
    · exact macDetectLoop_ax _ _ y h

/-- C8 as amended: `detect_adapter` returns an interface only if it is
accepted by the backend's identifier checks for the target adapter — on
macOS the returned hardware port's name contains `ax88179`; on Linux the
returned interface is built from the first sysfs entry accepted by the
loop (every entry listed before it was rejected), and that entry either
has a uevent reporting vendor id 0b95 or the AX88179 chip, or — only in
the absence of any earlier accepted entry — is an `enx`-named USB
interface taken by the lsusb fallback (an ASIX AX88179 device is present
on the bus, the entry's own uevent not being required to match); missing
or unreadable metadata is skipped or routed to the fallback, never a
failure. -/
theorem detect_adapter_matches (env : DetectEnv) (menv : MacEnv)
    (x : NetworkInterface) (y : MacNetworkInterface) :
    (detectAdapter env = some x →
      ∃ pre e post, env.ifaces = pre ++ e :: post ∧ x = mkIface e
        ∧ (ueventAccepts e = true ∨ fallbackAccepts env e = true)
        ∧ ∀ e' ∈ pre, ueventAccepts e' = false
            ∧ fallbackAccepts env e' = false)
    ∧ (macDetectAdapter menv = some y → isAx88179a y.name = true) := by
  constructor
  · intro h
    unfold detectAdapter detectAllAdapters at h
    split at h
    · simp at h
    · exact detectAllAux_first env env.ifaces x h
  · intro h
    exact macDetectAdapter_ax menv y h

/-- Witness for C8: the Linux fallback environment (the counterexample's)
and a macOS listing with the AX88179A port in second position. -/
theorem detect_adapter_matches_witness :
    (∃ pre e post, cexDetectEnv.ifaces = pre ++ e :: post
      ∧ mkIface cexIface = mkIface e
      ∧ (ueventAccepts e = true ∨ fallbackAccepts cexDetectEnv e = true)
      ∧ ∀ e' ∈ pre, ueventAccepts e' = false
          ∧ fallbackAccepts cexDetectEnv e' = false)
    ∧ isAx88179a macIfc0.name = true :=
  ⟨(detect_adapter_matches cexDetectEnv cexMacEnv (mkIface cexIface)
      macIfc0).1 (by decide),
   (detect_adapter_matches cexDetectEnv cexMacEnv (mkIface cexIface)
      macIfc0).2 (by decide)⟩

/-! ## CLI exit codes (C9) -/


/-- C9 counterexample: `disconnect` invoked with no adapter found (and no
saved state) prints a neutral warning and exits with code 0, contradicting
the claim that no adapter found produces exit code 1 for the disconnect
command. -/
theorem cmd_disconnect_no_adapter_exit_zero_cex :
    cexCliEnv.adapter = none ∧ cmdDisconnect none cexCliEnv = 0 := by
  decide

/-- C9 as amended: for `connect`, no adapter, no upstream, an interrupted
password prompt, and any sharing failure (auth failure included) each
produce exit code 1, and success produces 0; for `disconnect`, an
interrupted prompt and any sharing failure produce exit code 1 and success
produces 0 when a connection is known, while the absence of any known
connection (no saved state and no detected adapter/upstream pair) is a
neutral outcome with exit code 0. -/
theorem cli_exit_codes (env : CliEnv) (p : Option String) :
    (env.adapter = none → cmdConnect p env = 1)
    ∧ (env.upstream = none → cmdConnect p env = 1)
    ∧ (pyFalsy p = true → env.promptOutcome = none → cmdConnect p env = 1)
    ∧ (env.shareResult.1 = false → cmdConnect p env = 1)
    ∧ (∀ pw, obtainPassword p env = some pw → pyStrFalsy pw = false →
        env.shareResult.1 = true → env.adapter.isSome = true →
        env.upstream.isSome = true → cmdConnect p env = 0)
    ∧ (cliState env = none → cmdDisconnect p env = 0)
    ∧ ((cliState env).isSome = true → pyFalsy p = true →
        env.promptOutcome = none → cmdDisconnect p env = 1)
    ∧ ((cliState env).isSome = true → env.shareResult.1 = false →
        cmdDisconnect p env = 1)
    ∧ (∀ pw, (cliState env).isSome = true → obtainPassword p env = some pw →
        pyStrFalsy pw = false → env.shareResult.1 = true →
        cmdDisconnect p env = 0) := by
  refine ⟨?_, ?_, ?_, ?_, ?_, ?_, ?_, ?_, ?_⟩
  · intro h
    simp [cmdConnect, h]
  · intro h
    rcases ha : env.adapter with _ | a <;> simp [cmdConnect, ha, h]
  · intro hp hpr
    rcases ha : env.adapter with _ | a <;>
      rcases hu : env.upstream with _ | u <;>
        simp [cmdConnect, ha, hu, obtainPassword, hp, hpr]
  · intro hs
    rcases ha : env.adapter with _ | a <;>
      rcases hu : env.upstream with _ | u <;>
        rcases ho : obtainPassword p env with _ | pw <;>
          simp [cmdConnect, ha, hu, ho, hs]
  · intro pw ho hw hs ha hu
    rcases ha' : env.adapter with _ | a
    · rw [ha'] at ha
      simp at ha
    · rcases hu' : env.upstream with _ | u
      · rw [hu'] at hu
        simp at hu
      · simp [cmdConnect, ha', hu', ho, hw, hs]
  · intro h
    simp [cmdDisconnect, h]
  · intro hst hp hpr
    rcases hs : cliState env with _ | st
    · rw [hs] at hst
      simp at hst
    · simp [cmdDisconnect, hs, obtainPassword, hp, hpr]
  · intro hst hs
    rcases hc : cliState env with _ | st
    · rw [hc] at hst
      simp at hst
    · rcases ho : obtainPassword p env with _ | pw
      · simp [cmdDisconnect, hc, ho]
      · simp [cmdDisconnect, hc, ho, hs]
  · intro pw hst ho hw hs
    rcases hc : cliState env with _ | st
    · rw [hc] at hst
      simp at hst
    · simp [cmdDisconnect, hc, ho, hw, hs]


/-- Witness for C9 applying the amended exit-code law at concrete runs. -/
theorem cli_exit_codes_witness :
    cmdConnect none cexCliEnv = 1
    ∧ cmdDisconnect none cexCliEnv = 0
    ∧ cmdConnect none okCliEnv = 0
    ∧ cmdDisconnect none okCliEnv = 0 :=
  ⟨(cli_exit_codes cexCliEnv none).1 rfl,
   (cli_exit_codes cexCliEnv none).2.2.2.2.2.1 (by decide),
   (cli_exit_codes okCliEnv none).2.2.2.2.1 "hunter2" (by decide) (by decide)
     (by decide) (by decide) (by decide),
   (cli_exit_codes okCliEnv none).2.2.2.2.2.2.2.2 "hunter2" (by decide)
     (by decide) (by decide) (by decide)⟩

/-! ## Credential handling (C4, C5) -/

/-- `runEnable` only appends events after the ones it was given. -/
theorem mem_runEnable_evs (env : Env) (s : AppState) (evs : List Event)
    (x : Event) (hx : x ∈ evs) : x ∈ (runEnable env s evs).2 := by
  unfold runEnable
  rw [snd_ite]
  apply mem_ite_lists <;> simp [hx]

/-- With no cached credential and both interfaces found, the connect body
always shows the password prompt. -/
theorem performConnectBody_requests (env : Env) (s : AppState)
    (i u : NetworkInterface) (hcp : s.cachedPassword = none)
    (hd : env.detectResult = some i) (hu : env.upstreamResult = some u) :
    Event.passwordRequested ∈ (performConnectBody env s).2 := by
  rcases hpr : env.promptResult with _ | pw
  · simp [performConnectBody, hd, hu, hcp, hpr, pyFalsy, mem_ite_singleton]
  · rcases hw : pyStrFalsy pw
    · simp only [performConnectBody, hd, hu]
      simp only [setCurrentInterface_fst, setCurrentInterface_snd]
      simp [hcp, hpr, pyFalsy, hw]
      · exact mem_runEnable_evs env _ _ _ (by simp)
    · simp [performConnectBody, hd, hu, hcp, hpr, pyFalsy, hw,
            mem_ite_singleton]

/-- A non-busy `connect()` without a cached credential requests one from
the environment. -/
theorem connect_requests_password (env : Env) (s : AppState)
    (i u : NetworkInterface)
    (hb : s.isBusy = false) (hcp : s.cachedPassword = none)
    (hd : env.detectResult = some i) (hu : env.upstreamResult = some u) :
    Event.passwordRequested ∈ (connect env s).2 := by
  have hbody := performConnectBody_requests env
      {s with isBusy := true, connectionStatus := ConnectionStatus.connecting,
              statusKey := "status_connecting"} i u (by simp [hcp]) hd hu
  simp only [connect, hb, Bool.false_eq_true, if_false, performConnect]
  simp only [setIsBusy_fst, setConnectionStatus_fst, setStatusKey_fst]
  refine List.mem_append.mpr (Or.inr ?_)
  refine List.mem_append.mpr (Or.inl ?_)
  exact hbody

/-- C4: when the privileged enable/disable call made during `connect()` or
`disconnect()` fails with an error the state machine classifies as an
authentication/permission failure, the cached credential is cleared, so an
immediately following `connect()` shows the password prompt again instead
of reusing the stale value; the executor's auth classification
`"error_permission"` is covered by that classification. -/
theorem auth_failure_clears_credential
    (env env2 : Env) (s : AppState) (i u ci cu i2 u2 : NetworkInterface)
    (pw err : String)
    (hb : s.isBusy = false)
    (hpw : s.cachedPassword = some pw) (hpwne : pyStrFalsy pw = false)
    (hd : env.detectResult = some i) (hu : env.upstreamResult = some u)
    (hci : s.currentInterface = some ci) (hcu : s.upstreamInterface = some cu)
    (hshare : env.shareResult = (false, err)) (hauth : isAuthError err = true)
    (hd2 : env2.detectResult = some i2) (hu2 : env2.upstreamResult = some u2) :
    (connect env s).1.cachedPassword = none
    ∧ (disconnect env s).1.cachedPassword = none
    ∧ Event.passwordRequested ∈ (connect env2 (connect env s).1).2
    ∧ Event.passwordRequested ∈ (connect env2 (disconnect env s).1).2
    ∧ isAuthError "error_permission" = true := by
  have hc1 : (connect env s).1.cachedPassword = none
      ∧ (connect env s).1.isBusy = false := by
    constructor <;>
      simp [connect, performConnect, performConnectBody, runEnable, hb, hd,
            hu, hpw, hpwne, hshare, hauth, pyFalsy]
  have hc2 : (disconnect env s).1.cachedPassword = none
      ∧ (disconnect env s).1.isBusy = false := by
    constructor <;>
      simp [disconnect, performDisconnect, performDisconnectBody, runDisable,
            stopSpeedMonitor, hb, hci, hcu, hpw, hpwne, hshare, hauth,
            pyFalsy]
  refine ⟨hc1.1, hc2.1, ?_, ?_, by decide⟩
  · exact connect_requests_password env2 _ i2 u2 hc1.2 hc1.1 hd2 hu2
  · exact connect_requests_password env2 _ i2 u2 hc2.2 hc2.1 hd2 hu2

/-- Witness for C4: an auth-classified failure with a cached password, then
a retry against the same environment. -/
theorem auth_failure_clears_credential_witness :
    (connect envAuthFail sCached).1.cachedPassword = none
    ∧ (disconnect envAuthFail sCached).1.cachedPassword = none
    ∧ Event.passwordRequested
        ∈ (connect envAuthFail (connect envAuthFail sCached).1).2
    ∧ Event.passwordRequested
        ∈ (connect envAuthFail (disconnect envAuthFail sCached).1).2
    ∧ isAuthError "error_permission" = true :=
  auth_failure_clears_credential envAuthFail envAuthFail sCached
    ifc0 up0 ifc0 up0 ifc0 up0 "hunter2" "error_permission"
    rfl rfl (by decide) rfl rfl rfl rfl rfl (by decide) rfl rfl

/-- C5: cancelling the credential prompt during `connect()` moves the state
machine to Idle with the busy flag cleared and no error event; cancelling
it during `disconnect()` leaves the status Connected, again with busy
cleared and no error event. -/
theorem cancelled_prompt_behavior (env : Env) (s : AppState)
    (i u ci cu : NetworkInterface)
    (hb : s.isBusy = false) (hcp : s.cachedPassword = none)
    (hd : env.detectResult = some i) (hu : env.upstreamResult = some u)
    (hcancel : pyFalsy env.promptResult = true)
    (hci : s.currentInterface = some ci) (hcu : s.upstreamInterface = some cu) :
    (connect env s).1.connectionStatus = ConnectionStatus.idle
    ∧ (connect env s).1.isBusy = false
    ∧ (∀ m, Event.errorOccurred m ∉ (connect env s).2)
    ∧ (disconnect env s).1.connectionStatus = ConnectionStatus.connected
    ∧ (disconnect env s).1.isBusy = false
    ∧ (∀ m, Event.errorOccurred m ∉ (disconnect env s).2) := by
  refine ⟨?_, ?_, ?_, ?_, ?_, ?_⟩
  · simp [connect, performConnect, performConnectBody, hb, hd, hu, hcp,
          hcancel, pyFalsy_none]
  · simp [connect, performConnect, performConnectBody, hb, hd, hu, hcp,
          hcancel, pyFalsy_none]
  · intro m
    simp [connect, performConnect, performConnectBody, hb, hd, hu, hcp,
          hcancel, pyFalsy_none, mem_ite_singleton]
  · simp [disconnect, performDisconnect, performDisconnectBody,
          stopSpeedMonitor, hb, hci, hcu, hcp, hcancel, pyFalsy_none]
  · simp [disconnect, performDisconnect, performDisconnectBody,
          stopSpeedMonitor, hb, hci, hcu, hcp, hcancel, pyFalsy_none]
  · intro m
    simp [disconnect, performDisconnect, performDisconnectBody,
          stopSpeedMonitor, hb, hci, hcu, hcp, hcancel, pyFalsy_none,
          mem_ite_singleton]

/-- Witness for C5: a closed prompt during connect and during disconnect
from a concrete connected state. -/
theorem cancelled_prompt_behavior_witness :
    (connect envCancel sNoPw).1.connectionStatus = ConnectionStatus.idle
    ∧ (connect envCancel sNoPw).1.isBusy = false
    ∧ Event.errorOccurred "boom" ∉ (connect envCancel sNoPw).2
    ∧ (disconnect envCancel sNoPw).1.connectionStatus =
        ConnectionStatus.connected
    ∧ (disconnect envCancel sNoPw).1.isBusy = false
    ∧ Event.errorOccurred "boom" ∉ (disconnect envCancel sNoPw).2 := by
  have h := cancelled_prompt_behavior envCancel sNoPw ifc0 up0 ifc0 up0
    rfl rfl rfl rfl (by decide) rfl rfl
  exact ⟨h.1, h.2.1, h.2.2.1 "boom", h.2.2.2.1, h.2.2.2.2.1,
         h.2.2.2.2.2 "boom"⟩

end RM01
